import Mathlib

/-!
Verification development for the aws_resource_reaper repository.

The Python sources under `lambdas/reaper/` (the files `reaper.py`,
`reaper_class.py`, `slack_notifier.py`) are shallowly embedded below:
pure helpers become Lean functions, the stateful provider calls
(terminate, stop, delete, create_tags, waiters) become elements of an
explicit `ReaperAction` trace, Python exceptions become an `Except PyExc`
result, and wall-clock time becomes an explicit integer instant passed
in by the caller.  The external `dateutil` parser is modelled by a
small concrete ISO-8601 parser plus, in the general theorems, an
arbitrary parse function constrained only by the error kinds dateutil
can produce.
-/

/-- Kinds of Python exceptions that the embedded code can raise or
catch.  `valueError` is what `dateutil.parser.parse` raises on an
unparsable string (and `calculate_lifetime_delta` on an unknown unit);
`typeError` is what Python raises when comparing or subtracting an
offset-naive and an offset-aware datetime, and what
`dateutil.parser.parse(None)` raises. -/
inductive PyExc where
  | valueError
  | typeError
deriving Repr, DecidableEq

/-- An AWS tag: a Key/Value pair, as in the boto3 tag arrays. -/
structure Tag where
  Key : String
  Value : String
deriving Repr, DecidableEq

/-- Helper loop of `get_tag`: first matching key wins (the Python loop
sets `output` and `break`s at the first match, otherwise leaves
`output = None`). -/
def get_tag_loop : List Tag → String → Option String
  | [], _ => none
  | t :: rest, tag_name =>
    if t.Key = tag_name then some t.Value else get_tag_loop rest tag_name

/-- `ResourceReaper.get_tag` (reaper_class.py lines 23-43): returns
`None` when the tag array is `None` or empty, otherwise the value of
the first tag whose key matches, or `None` when no key matches. -/
def get_tag (tag_array : Option (List Tag)) (tag_name : String) : Option String :=
  match tag_array with
  | none => none
  | some [] => none
  | some tags => get_tag_loop tags tag_name

/-- Auxiliary for `strContains`: does `needle` occur as a contiguous
sublist of the second argument?  Mirrors Python's `needle in hay` for
strings (an empty needle is contained in everything). -/
def contains_sub (needle : List Char) : List Char → Bool
  | [] => needle.isEmpty
  | c :: t => needle.isPrefixOf (c :: t) || contains_sub needle t

/-- Python's substring test `needle in hay` (case sensitive). -/
def strContains (hay needle : String) : Bool :=
  contains_sub needle.toList hay.toList

/-- Character-level walk implementing Python's `str.title()`: a letter
that follows a non-letter is uppercased, a letter that follows a letter
is lowercased, other characters are kept. -/
def py_title_go (prev_alpha : Bool) : List Char → List Char
  | [] => []
  | c :: cs =>
    let c2 := if c.isAlpha then (if prev_alpha then c.toLower else c.toUpper) else c
    c2 :: py_title_go c.isAlpha cs

/-- Python's `str.title()` on the strings this code applies it to
(lower-case ASCII words separated by spaces/underscores). -/
def py_title (s : String) : String :=
  String.mk (py_title_go false s.toList)

/-- Python's `s[:-1]`: drop the final character (identity on `""`). -/
def py_dropLast (s : String) : String :=
  String.mk s.toList.dropLast

/-- Python's `s.replace(old, new)` for a one-character `old` (the only
shape this code uses: `replace("_", " ")` and `replace(" ", "")`). -/
def py_replace_char (a : Char) (b : List Char) : List Char → List Char
  | [] => []
  | c :: cs =>
    if c = a then b ++ py_replace_char a b cs
    else c :: py_replace_char a b cs

/-- Python's `s.lower()` (ASCII lowering suffices for the values the
LIVEMODE flag is compared against). -/
def py_lower (s : String) : String :=
  String.mk (s.toList.map Char.toLower)

/-- `ResourceReaper.adjust_resource_string` (reaper_class.py lines
114-132): snake-case plural resource name to camel-case singular boto3
attribute name, e.g. `"route_tables"` to `"RouteTable"`. -/
def adjust_resource_string (resource : String) : String :=
  if strContains resource "_" then
    let resource_string := String.mk (py_replace_char '_' [' '] resource.toList)
    let resource_string := py_title resource_string
    let resource_string := String.mk (py_replace_char ' ' [] resource_string.toList)
    py_dropLast resource_string
  else
    let resource_string := py_title resource
    py_dropLast resource_string

/-- Split a character list into its maximal digit run and the rest;
this is how the anchored regex `^([0-9]+)(w|d|h|m)$` consumes its
input (the unit characters are not digits, so the greedy `+` never
backtracks). -/
def span_digits : List Char → List Char × List Char
  | [] => ([], [])
  | c :: cs =>
    if c.isDigit then
      let sp := span_digits cs
      (c :: sp.1, sp.2)
    else ([], c :: cs)

/-- Is the character one of the four lifetime units `w`, `d`, `h`, `m`? -/
def unit_char (u : Char) : Bool :=
  u = 'w' || u = 'd' || u = 'h' || u = 'm'

/-- The match of `re.search(r"^([0-9]+)(w|d|h|m)$", s)`: `^` anchors
the digit run at the start, and CPython's `$` (without re.MULTILINE)
matches at the end of the string or just before a newline that is the
string's final character.  The regex therefore matches exactly when
the string is a nonempty digit run followed by a unit character,
optionally followed by one trailing newline; the two capture groups
are returned. -/
def lifetime_regex_groups (cs : List Char) : Option (List Char × Char) :=
  let sp := span_digits cs
  match sp.1, sp.2 with
  | [], _ => none
  | d :: ds, [u] => if unit_char u then some (d :: ds, u) else none
  | d :: ds, [u, c] =>
    if unit_char u && (c == '\n') then some (d :: ds, u) else none
  | _ :: _, _ => none

/-- Python's `int()` on a (nonempty) digit string. -/
def py_int (ds : List Char) : Nat :=
  ds.foldl (fun n c => 10 * n + (c.toNat - 48)) 0

/-- `ResourceReaper.validate_lifetime_value` (reaper_class.py lines
279-291): run the anchored regex; on a match return the tuple
`(int(groups[0]), groups[1])`, otherwise return `None`. -/
def validate_lifetime_value (lifetime_value : String) : Option (Nat × Char) :=
  match lifetime_regex_groups lifetime_value.toList with
  | none => none
  | some (digits, unit) => some (py_int digits, unit)

/-- `ResourceReaper.calculate_lifetime_delta` (reaper_class.py lines
293-311): turn a `(length, unit)` pair into a duration in seconds
(weeks, hours, days, minutes, in the source's branch order); any other
unit raises `ValueError`. -/
def calculate_lifetime_delta (lifetime_tuple : Nat × Char) : Except PyExc Int :=
  let length := lifetime_tuple.1
  let unit := lifetime_tuple.2
  if unit = 'w' then .ok (604800 * (length : Int))
  else if unit = 'h' then .ok (3600 * (length : Int))
  else if unit = 'd' then .ok (86400 * (length : Int))
  else if unit = 'm' then .ok (60 * (length : Int))
  else .error PyExc.valueError

/-- Result of parsing a timestamp string: a timezone-aware instant or
an offset-naive one.  Instants are integers in a fixed monotone
encoding of the datetime fields; `timenow_with_utc` always yields an
aware instant, carried below as a plain `Int` parameter `now`. -/
inductive Timestamp where
  | aware (t : Int)
  | naive (t : Int)
deriving Repr, DecidableEq

/-- Python's `parsed > now` where `now` is timezone-aware: comparing an
offset-naive datetime with an offset-aware one raises `TypeError`. -/
def tsGt : Timestamp → Int → Except PyExc Bool
  | .aware t, now => .ok (decide (t > now))
  | .naive _, _ => .error PyExc.typeError

/-- Python's `parsed - now` where `now` is timezone-aware: subtracting
across naive/aware raises `TypeError`; otherwise the timedelta in
seconds. -/
def tsSub : Timestamp → Int → Except PyExc Int
  | .aware t, now => .ok (t - now)
  | .naive _, _ => .error PyExc.typeError

/-- Python's `timedelta.seconds` attribute of a timedelta of `x`
seconds: the seconds component of the normalized representation. -/
def timedelta_seconds (x : Int) : Int := x % 86400

/-- Monotone mixed-radix encoding of datetime fields into one integer.
Only the ordering and injectivity of the encoding matter to the
development, not calendar details. -/
def dt_instant (y mo d hh mi ss : Nat) : Int :=
  ((((((y * 12 + (mo - 1)) * 31 + (d - 1)) * 24 + hh) * 60 + mi) * 60 + ss : Nat) : Int)

/-- Numeric value of two digit characters. -/
def two_digits (a b : Char) : Nat :=
  10 * (a.toNat - 48) + (b.toNat - 48)

/-- Parse a 19-character `YYYY-MM-DDTHH:MM:SS` block into an instant. -/
def parse_iso_19 (cs : List Char) : Option Int :=
  match cs with
  | [y1, y2, y3, y4, c1, o1, o2, c2, d1, d2, ct, h1, h2, c3, mi1, mi2, c4, s1, s2] =>
    if c1 = '-' && c2 = '-' && ct = 'T' && c3 = ':' && c4 = ':'
        && y1.isDigit && y2.isDigit && y3.isDigit && y4.isDigit
        && o1.isDigit && o2.isDigit && d1.isDigit && d2.isDigit
        && h1.isDigit && h2.isDigit && mi1.isDigit && mi2.isDigit
        && s1.isDigit && s2.isDigit then
      some (dt_instant (100 * two_digits y1 y2 + two_digits y3 y4)
        (two_digits o1 o2) (two_digits d1 d2) (two_digits h1 h2)
        (two_digits mi1 mi2) (two_digits s1 s2))
    else none
  | _ => none

/-- The `+00:00` UTC offset suffix. -/
def utc_offset_suffix : List Char := ['+', '0', '0', ':', '0', '0']

/-- Concrete model of the external `dateutil.parser.parse` on the
timestamp strings this system produces and consumes (spec section 3:
an ISO-8601 timestamp with explicit UTC offset, or a timestamp without
one): with a `+00:00` suffix the result is timezone-aware, without one
it is offset-naive, and anything else raises `ValueError`.  General
theorems below quantify over an arbitrary parse function instead. -/
def dateutil_parse (s : String) : Except PyExc Timestamp :=
  let cs := s.toList
  if cs.length ≥ 25 && cs.drop (cs.length - 6) = utc_offset_suffix then
    match parse_iso_19 (cs.take (cs.length - 6)) with
    | some t => .ok (Timestamp.aware t)
    | none => .error PyExc.valueError
  else
    match parse_iso_19 cs with
    | some t => .ok (Timestamp.naive t)
    | none => .error PyExc.valueError

/-- `dateutil.parser.parse` applied to a value that may be `None`
(Python raises `TypeError` on `parse(None)`). -/
def dateutil_parse_arg (p : String → Except PyExc Timestamp) :
    Option String → Except PyExc Timestamp
  | none => .error PyExc.typeError
  | some s => p s

/-- Value written by an `ec2_instance.create_tags` call: either a
string literal (the `indefinite` sentinel) or
`future_termination_date.isoformat()`, modelled by the encoded instant
(`isoformat` is injective on instants, so two writes are equal exactly
when their instants are). -/
inductive TagWriteValue where
  | literal (s : String)
  | isoformat (t : Int)
deriving Repr, DecidableEq

/-- Trace element for every provider-mutating call the embedded code
issues, in program order. -/
inductive ReaperAction where
  | create_tags (key : String) (value : TagWriteValue)
  | instance_terminate (resource_id : String)
  | wait_instance_terminated (resource_id : String)
  | instance_stop (resource_id : String)
  | rta_delete (rta_id : String)
  | item_delete (resource : String) (resource_id : String)
  | detach_from_vpc (resource_id vpc_id : String)
  | elb_delete_load_balancer (lb_name : String)
  | elbv2_delete_load_balancer (lb_arn : String)
  | wait_load_balancers_deleted (lb_arn : String)
  | delete_target_group_call (tg_arn : String)
deriving Repr, DecidableEq

/-- `self.prod_infra` (reaper_class.py line 21): the sentinel tag value
for resources that should never expire. -/
def prod_infra : String := "indefinite"

/-- `self.wait_time` (reaper_class.py line 20): minutes to wait for
tags to appear. -/
def reaper_wait_time : Nat := 4

/-- Render a Python bool the way `str.format` does. -/
def py_bool_str : Bool → String
  | true => "True"
  | false => "False"

/-- `ResourceReaper.terminate_instance` (reaper_class.py lines
205-227): builds the output message; when `livemode` is set it
terminates the instance and waits for the `instance_terminated`
waiter, otherwise it only reports what would have been done.  Returns
the output string and the trace of provider calls. -/
def terminate_instance (livemode : Bool) (instance_id : String) (message : String) :
    String × List ReaperAction :=
  let output := "REAPER TERMINATION: " ++ message ++ " for ec2_instance_id=" ++ instance_id ++ "\n"
  if livemode then
    (output ++ "REAPER TERMINATION enabled: deleting instance " ++ instance_id,
     [ReaperAction.instance_terminate instance_id, ReaperAction.wait_instance_terminated instance_id])
  else
    (output ++ "REAPER TERMINATION not enabled: LIVEMODE is " ++ py_bool_str livemode
      ++ ". Would have deleted instance " ++ instance_id, [])

/-- `ResourceReaper.stop_instance` (reaper_class.py lines 229-241):
derives the boto3 attribute name from the resource string (computed but
only used to pick the provider object) and stops the instance.  There is
no LIVEMODE check inside; the caller guards the call. -/
def stop_instance (resource : String) (resource_id : String) : List ReaperAction :=
  let _resource_attr := py_dropLast (py_title resource)
  [ReaperAction.instance_stop resource_id]

/-- One route-table association entry of `item.associations_attribute`. -/
structure RouteTableAssociation where
  main : Bool
  RouteTableAssociationId : String
deriving Repr, DecidableEq

/-- Provider-side state of one EC2 resource, as the reaper reads it:
identifier, the two tag collections (`tags` for most kinds, `tag_set`
for network interfaces), and the attributes the kind-specific delete
branches consult. -/
structure EC2Resource where
  id : String
  tags : Option (List Tag) := none
  tag_set : Option (List Tag) := none
  associations_attribute : List RouteTableAssociation := []
  is_default : Bool := false
  attachments : List String := []
deriving Repr, DecidableEq

/-- The route-table branch of `delete_ec2_resource`: delete every
association that is not the main association, in order. -/
def delete_nonmain_associations : List RouteTableAssociation → List ReaperAction
  | [] => []
  | rta :: rest =>
    if !rta.main then
      ReaperAction.rta_delete rta.RouteTableAssociationId :: delete_nonmain_associations rest
    else delete_nonmain_associations rest

/-- `ResourceReaper.delete_ec2_resource` (reaper_class.py lines
134-169): adjust the resource string, pick the provider item, then
dispatch on substrings of the adjusted string.  Note two facts of the
source reproduced faithfully here: the `"RouteTable"` branch deletes
the non-main associations and nothing else (no `item.delete()`
follows), and the `"NetworkACL"` branch compares case-sensitively
against the adjusted string. -/
def delete_ec2_resource (item : EC2Resource) (resource : String) (resource_id : String) :
    List ReaperAction :=
  let resource := adjust_resource_string resource
  if strContains resource "RouteTable" then
    delete_nonmain_associations item.associations_attribute
  else if strContains resource "NetworkACL" then
    if !item.is_default then [ReaperAction.item_delete resource resource_id] else []
  else if strContains resource "Instance" then
    [ReaperAction.instance_terminate resource_id, ReaperAction.wait_instance_terminated resource_id]
  else if strContains resource "InternetGateway" then
    (item.attachments.map fun vpc => ReaperAction.detach_from_vpc resource_id vpc)
      ++ [ReaperAction.item_delete resource resource_id]
  else
    [ReaperAction.item_delete resource resource_id]

/-- `ResourceReaper.delete_target_group` (reaper_class.py lines
171-177). -/
def delete_target_group (tg_arn : String) : List ReaperAction :=
  [ReaperAction.delete_target_group_call tg_arn]

/-- `ResourceReaper.delete_load_balancer` (classic, reaper_class.py
lines 179-188). -/
def delete_load_balancer (lb_name : String) : List ReaperAction :=
  [ReaperAction.elb_delete_load_balancer lb_name]

/-- `ResourceReaper.delete_v2_load_balancer` (reaper_class.py lines
190-203): delete, then block on the `load_balancers_deleted` waiter. -/
def delete_v2_load_balancer (lb_arn : String) : List ReaperAction :=
  [ReaperAction.elbv2_delete_load_balancer lb_arn, ReaperAction.wait_load_balancers_deleted lb_arn]

/-- Python truthiness of an optional tag value: `None` and the empty
string are falsy. -/
def py_truthy_str : Option String → Bool
  | none => false
  | some s => !s.isEmpty

/-- `ResourceReaper.wait_for_tags` (reaper_class.py lines 53-112).
The wall-clock poll loop is embedded by the list `polls` of tag
snapshots `ec2_instance.load()` observes, one per iteration the clock
budget admits; the empty list is the iteration at which
`timenow_with_utc() < timeout` first fails.  `start` is the poll-start
instant.  Returns the value Python returns (the found tag value, or
`None` on every other path) together with the provider-call trace. -/
def wait_for_tags (livemode : Bool) (instance_id : String) (start : Int) :
    List (Option (List Tag)) → Except PyExc (Option String × List ReaperAction)
  | [] =>
    -- wall-clock budget exhausted: terminate and print; no exception is raised
    let r := terminate_instance livemode instance_id
      ("No termination_date found within " ++ toString reaper_wait_time ++ " minutes of creation")
    .ok (none, r.2)
  | tags :: rest =>
    let termination_date := get_tag tags "termination_date"
    if py_truthy_str termination_date then
      .ok (termination_date, [])
    else
      let lifetime := get_tag tags "lifetime"
      if !py_truthy_str lifetime then
        -- sleep 15s and poll again
        wait_for_tags livemode instance_id start rest
      else
        let lv := lifetime.getD ""
        if lv = prod_infra then
          .ok (none, [ReaperAction.create_tags "termination_date" (TagWriteValue.literal prod_infra)])
        else
          match validate_lifetime_value lv with
          | none =>
            let r := terminate_instance livemode instance_id "Invalid lifetime value supplied"
            .ok (none, r.2)
          | some lifetime_match => do
            let lifetime_delta ← calculate_lifetime_delta lifetime_match
            let future_termination_date := start + lifetime_delta
            .ok (none,
              [ReaperAction.create_tags "termination_date" (TagWriteValue.isoformat future_termination_date)])

/-- `ResourceReaper.validate_ec2_termination_date` (reaper_class.py
lines 243-277).  The source wraps `parse(termination_date) - now` in
`try/except Exception as error`, but the handler's guard is
`error is TypeError`, which in Python compares an exception instance
against the class and is always `False`; the handler therefore never
runs either `terminate_instance` branch and `output` is still `None`
after the `try`.  The swallowed computation has no other effect, so
execution always reaches the `if not output:` re-parse, where parse
and comparison errors propagate uncaught. -/
def validate_ec2_termination_date (p : String → Except PyExc Timestamp) (now : Int)
    (livemode : Bool) (instance_id : String) (tags : Option (List Tag)) :
    Except PyExc (Option String × List ReaperAction) := do
  let termination_date := get_tag tags "termination_date"
  let t ← dateutil_parse_arg p termination_date
  let gt ← tsGt t now
  if gt then
    let t2 ← dateutil_parse_arg p termination_date
    let ttl ← tsSub t2 now
    return (some ("EC2 instance will be terminated " ++ toString (timedelta_seconds ttl)
      ++ " seconds from now, roughly"), [])
  else
    let r := terminate_instance livemode instance_id "The termination_date has passed"
    return (some r.1, r.2)

/-- `enforce` (reaper.py lines 38-68): run `wait_for_tags`; when it
returns a truthy termination_date, validate it.  The surrounding
`try/except` loads the instance, prints, and re-raises, so it is the
identity on the error result; on normal completion the handler prints
"Schema successfully enforced." and returns.  `tags_at_validation` is
the instance tag set `validate_ec2_termination_date` re-reads. -/
def enforce (livemode : Bool) (instance_id : String) (start : Int)
    (polls : List (Option (List Tag))) (p : String → Except PyExc Timestamp)
    (tags_at_validation : Option (List Tag)) (now : Int) :
    Except PyExc (List ReaperAction) := do
  let r ← wait_for_tags livemode instance_id start polls
  let termination_date := r.1
  if py_truthy_str termination_date then do
    let v ← validate_ec2_termination_date p now livemode instance_id tags_at_validation
    return r.2 ++ v.2
  else
    return r.2

/-- The per-kind outcome dict of `terminate_expired_ec2_resources`:
`{"deleted": ..., "improperly_tagged": ..., "stopped": ...}`. -/
structure EC2SweepOutcome where
  deleted : List String
  improperly_tagged : List String
  stopped : List String
deriving Repr, DecidableEq

/-- The outcome dict of the load-balancer and target-group sweeps:
`{"deleted": ..., "improperly_tagged": ...}`. -/
structure LBSweepOutcome where
  deleted : List String
  improperly_tagged : List String
deriving Repr, DecidableEq

/-- The termination_date lookup of the per-resource loop
(reaper_class.py lines 346-352): network interfaces carry their tags
in `tag_set`, every other kind in `tags`. -/
def resource_termination_lookup (resource : String) (item : EC2Resource) : Option String :=
  if strContains resource "network_interfaces" then
    get_tag item.tag_set "termination_date"
  else
    get_tag item.tags "termination_date"

/-- Body of the `try:` block of the per-resource loop (reaper_class.py
lines 368-385): parse the tag and compare with now (raising
`ValueError` on an unparsable string and `TypeError` on an offset-naive
one); in the future case re-parse for the printed ttl and do nothing,
in the expired case delete when LIVEMODE is set.  Returns whether the
id is appended to `deleted`, with the delete trace. -/
def ec2_sweep_try (p : String → Except PyExc Timestamp) (now : Int) (livemode : Bool)
    (item : EC2Resource) (resource resource_id termination_date : String) :
    Except PyExc (Bool × List ReaperAction) := do
  let t ← p termination_date
  let gt ← tsGt t now
  if gt then
    let t2 ← p termination_date
    let _ttl ← tsSub t2 now
    return (false, [])
  else
    if livemode then
      return (true, delete_ec2_resource item resource resource_id)
    else
      return (true, [])

/-- The `for item in resources:` loop of
`terminate_expired_ec2_resources` (reaper_class.py lines 346-394), with
the three id lists and the provider-call trace threaded as
accumulators.  Only `ValueError` is caught around the parse/compare
block; any other exception propagates out of the whole sweep. -/
def terminate_expired_ec2_resources_loop (p : String → Except PyExc Timestamp) (now : Int)
    (livemode : Bool) (resource : String) :
    List EC2Resource → List String → List String → List String → List ReaperAction →
    Except PyExc (EC2SweepOutcome × List ReaperAction)
  | [], improperly_tagged, deleted, stopped, acts =>
    .ok (⟨deleted, improperly_tagged, stopped⟩, acts)
  | item :: rest, improperly_tagged, deleted, stopped, acts =>
    let resource_id := item.id
    match resource_termination_lookup resource item with
    | none =>
      let improperly_tagged := improperly_tagged ++ [resource_id]
      if strContains resource "instances" then
        let stopped := stopped ++ [resource_id]
        let acts := if livemode then acts ++ stop_instance resource resource_id else acts
        terminate_expired_ec2_resources_loop p now livemode resource rest
          improperly_tagged deleted stopped acts
      else
        terminate_expired_ec2_resources_loop p now livemode resource rest
          improperly_tagged deleted stopped acts
    | some termination_date =>
      if termination_date ≠ prod_infra then
        match ec2_sweep_try p now livemode item resource resource_id termination_date with
        | .ok (was_deleted, new_acts) =>
          terminate_expired_ec2_resources_loop p now livemode resource rest
            improperly_tagged
            (if was_deleted then deleted ++ [resource_id] else deleted)
            stopped (acts ++ new_acts)
        | .error PyExc.valueError =>
          -- print "Unable to parse the termination_date ..."; continue
          terminate_expired_ec2_resources_loop p now livemode resource rest
            improperly_tagged deleted stopped acts
        | .error e => .error e
      else
        terminate_expired_ec2_resources_loop p now livemode resource rest
          improperly_tagged deleted stopped acts

/-- `ResourceReaper.terminate_expired_ec2_resources` (reaper_class.py
lines 313-401): iterate the listed resources of one kind (the listing
itself is the provider's and is passed in), classify each by its
termination_date tag, and return the outcome dict.  `resource` is the
snake-case kind string from the caller's list (e.g. `"instances"`,
`"subnets"`). -/
def terminate_expired_ec2_resources (p : String → Except PyExc Timestamp) (now : Int)
    (livemode : Bool) (resource : String) (resources : List EC2Resource) :
    Except PyExc (EC2SweepOutcome × List ReaperAction) :=
  terminate_expired_ec2_resources_loop p now livemode resource resources [] [] [] []

/-- One entry of the provider's `describe_load_balancers` response,
paired with the tag array that `describe_tags` returns for it
(`TagDescriptions[0]["Tags"]`).  `name` is the `LoadBalancerName`
(classic) or `LoadBalancerArn` (v2). -/
structure LoadBalancerEntry where
  name : String
  tag_array : List Tag
deriving Repr, DecidableEq

/-- The expired branch of the load-balancer loop (reaper_class.py
lines 449-470): parse/compare, then in the expired case delete through
the v2 or classic API when LIVEMODE is set. -/
def lb_sweep_try (p : String → Except PyExc Timestamp) (now : Int) (livemode : Bool)
    (service_is_v2 : Bool) (lb_name termination_date : String) :
    Except PyExc (Bool × List ReaperAction) := do
  let t ← p termination_date
  let gt ← tsGt t now
  if gt then
    let t2 ← p termination_date
    let _ttl ← tsSub t2 now
    return (false, [])
  else
    if service_is_v2 then
      if livemode then return (true, delete_v2_load_balancer lb_name)
      else return (true, [])
    else
      if livemode then return (true, delete_load_balancer lb_name)
      else return (true, [])

/-- The `for load_balancer in load_balancer_info:` loop of
`terminate_expired_load_balancers` (reaper_class.py lines 431-479). -/
def terminate_expired_load_balancers_loop (p : String → Except PyExc Timestamp) (now : Int)
    (livemode : Bool) (service_is_v2 : Bool) :
    List LoadBalancerEntry → List String → List String → List ReaperAction →
    Except PyExc (LBSweepOutcome × List ReaperAction)
  | [], improperly_tagged, deleted_load_balancers, acts =>
    .ok (⟨deleted_load_balancers, improperly_tagged⟩, acts)
  | lb :: rest, improperly_tagged, deleted_load_balancers, acts =>
    let lb_name := lb.name
    match get_tag (some lb.tag_array) "termination_date" with
    | none =>
      terminate_expired_load_balancers_loop p now livemode service_is_v2 rest
        (improperly_tagged ++ [lb_name]) deleted_load_balancers acts
    | some termination_date =>
      if termination_date ≠ prod_infra then
        match lb_sweep_try p now livemode service_is_v2 lb_name termination_date with
        | .ok (was_deleted, new_acts) =>
          terminate_expired_load_balancers_loop p now livemode service_is_v2 rest
            improperly_tagged
            (if was_deleted then deleted_load_balancers ++ [lb_name] else deleted_load_balancers)
            (acts ++ new_acts)
        | .error PyExc.valueError =>
          terminate_expired_load_balancers_loop p now livemode service_is_v2 rest
            improperly_tagged deleted_load_balancers acts
        | .error e => .error e
      else
        terminate_expired_load_balancers_loop p now livemode service_is_v2 rest
          improperly_tagged deleted_load_balancers acts

/-- `ResourceReaper.terminate_expired_load_balancers` (reaper_class.py
lines 403-484): classify every described load balancer by its
termination_date tag; `service_is_v2` is the source's
`"v2" in str(self.service)` test. -/
def terminate_expired_load_balancers (p : String → Except PyExc Timestamp) (now : Int)
    (livemode : Bool) (service_is_v2 : Bool) (lbs : List LoadBalancerEntry) :
    Except PyExc (LBSweepOutcome × List ReaperAction) :=
  terminate_expired_load_balancers_loop p now livemode service_is_v2 lbs [] [] []

/-- One entry of `describe_target_groups`, paired with its
`describe_tags` tag array. -/
structure TargetGroupEntry where
  arn : String
  tag_array : List Tag
deriving Repr, DecidableEq

/-- The expired branch of the target-group loop (reaper_class.py lines
527-544). -/
def tg_sweep_try (p : String → Except PyExc Timestamp) (now : Int) (livemode : Bool)
    (tg_arn termination_date : String) :
    Except PyExc (Bool × List ReaperAction) := do
  let t ← p termination_date
  let gt ← tsGt t now
  if gt then
    let t2 ← p termination_date
    let _ttl ← tsSub t2 now
    return (false, [])
  else
    if livemode then return (true, delete_target_group tg_arn)
    else return (true, [])

/-- The `for target_group in target_groups_array:` loop of
`terminate_expired_target_groups` (reaper_class.py lines 513-553). -/
def terminate_expired_target_groups_loop (p : String → Except PyExc Timestamp) (now : Int)
    (livemode : Bool) :
    List TargetGroupEntry → List String → List String → List ReaperAction →
    Except PyExc (LBSweepOutcome × List ReaperAction)
  | [], improperly_tagged, deleted_target_groups, acts =>
    .ok (⟨deleted_target_groups, improperly_tagged⟩, acts)
  | tg :: rest, improperly_tagged, deleted_target_groups, acts =>
    let tg_arn := tg.arn
    match get_tag (some tg.tag_array) "termination_date" with
    | none =>
      terminate_expired_target_groups_loop p now livemode rest
        (improperly_tagged ++ [tg_arn]) deleted_target_groups acts
    | some termination_date =>
      if termination_date ≠ prod_infra then
        match tg_sweep_try p now livemode tg_arn termination_date with
        | .ok (was_deleted, new_acts) =>
          terminate_expired_target_groups_loop p now livemode rest
            improperly_tagged
            (if was_deleted then deleted_target_groups ++ [tg_arn] else deleted_target_groups)
            (acts ++ new_acts)
        | .error PyExc.valueError =>
          terminate_expired_target_groups_loop p now livemode rest
            improperly_tagged deleted_target_groups acts
        | .error e => .error e
      else
        terminate_expired_target_groups_loop p now livemode rest
          improperly_tagged deleted_target_groups acts

/-- `ResourceReaper.terminate_expired_target_groups` (reaper_class.py
lines 486-558). -/
def terminate_expired_target_groups (p : String → Except PyExc Timestamp) (now : Int)
    (livemode : Bool) (tgs : List TargetGroupEntry) :
    Except PyExc (LBSweepOutcome × List ReaperAction) :=
  terminate_expired_target_groups_loop p now livemode tgs [] [] []

/-- `determine_live_mode` (reaper.py lines 23-31): `True` exactly when
the `LIVEMODE` environment variable is set and matches
`re.search(r"(?i)^true$", ...)`, i.e. equals `"true"` up to case,
optionally with one trailing newline (CPython's `$`); `False` when the
variable is unset or holds anything else.  The environment is passed
as an association list. -/
def determine_live_mode (environ : List (String × String)) : Bool :=
  match environ.lookup "LIVEMODE" with
  | some v =>
    -- CPython's `$` in `(?i)^true$` also matches just before a
    -- string-final newline, so "true" and "true\n" (case-folded) match
    py_lower v = "true" || py_lower v = "true\n"
  | none => false

/-- `LIVEMODE` (reaper.py line 34): the module-level flag both `enforce`
and `resource_reaper` consult.  The source line is
`LIVEMODE = True  #determine_live_mode()` — the environment read is
commented out and the flag is the constant `True`. -/
def LIVEMODE : Bool := true

/-- `is_red_alert` (slack_notifier.py lines 51-58): the message
contains the word `STOPPED`. -/
def is_red_alert (message : String) : Bool :=
  strContains message "STOPPED"

/-- `is_missing_tag` (slack_notifier.py lines 61-68): the message
contains the word `FOUND`. -/
def is_missing_tag (message : String) : Bool :=
  strContains message "FOUND"

/-- The decompressed log event, as far as `determine_message_color`
reads it: its `logGroup` name. -/
structure LogEvent where
  logGroup : String
deriving Repr, DecidableEq

/-- `determine_message_color` (slack_notifier.py lines 71-92): red for
STOPPED messages, orange for FOUND (missing tag) messages, green for
the Terminator log group, yellow otherwise — tested in that order. -/
def determine_message_color (event : LogEvent) (message : String) : String :=
  let red := "#ff0000"
  let green := "#33cc33"
  let yellow := "#ffff00"
  let orange := "#ff7f50"
  if is_red_alert message then red
  else if is_missing_tag message then orange
  else if strContains event.logGroup "Terminator" then green
  else yellow

/-- A fixed sample aware instant (2016-06-01T00:00:00 UTC) used as
`timenow_with_utc()` in concrete statements. -/
def sample_now : Int := dt_instant 2016 6 1 0 0 0

/-- C1: the claim says the LiveMode flag used by the sweep reaper
equals the result of reading the LIVEMODE environment variable (true
exactly for a case-insensitive "true", false when unset or different).
The code diverges: `determine_live_mode` does implement that read, but
reaper.py line 34 binds `LIVEMODE = True` with the call
`determine_live_mode()` commented out, so the flag in force is the
constant `True` regardless of the environment — here exhibited against
an environment where the variable is unset and one where it is
`"false"`, both of which the claimed read maps to `False`. -/
theorem livemode_flag_is_hardcoded_true :
    LIVEMODE = true ∧
    determine_live_mode [] = false ∧
    determine_live_mode [("LIVEMODE", "false")] = false ∧
    determine_live_mode [("LIVEMODE", "TRUE")] = true ∧
    determine_live_mode [("LIVEMODE", "true")] = true := by
  refine ⟨rfl, rfl, ?_, ?_, ?_⟩ <;> decide

/-- C3: the claim says every enforcer escalation issues a termination
command and re-raises the underlying condition out of `enforce`.  The
code issues the termination but does not re-raise: with an invalid
lifetime value at the first poll (first conjunct) and with the wait
budget exhausted with no tags (second conjunct), `wait_for_tags`
returns `None` after terminating, and `enforce` completes normally
(`Except.ok`) — no exception reaches its caller. -/
theorem enforce_escalations_complete_without_reraise
    (p : String → Except PyExc Timestamp) (start now : Int) :
    enforce true "i-1" start [some [⟨"lifetime", "badunit"⟩]] p none now
      = Except.ok [ReaperAction.instance_terminate "i-1",
          ReaperAction.wait_instance_terminated "i-1"] ∧
    enforce true "i-1" start [] p none now
      = Except.ok [ReaperAction.instance_terminate "i-1",
          ReaperAction.wait_instance_terminated "i-1"] :=
  ⟨rfl, rfl⟩

/-- C4: the claim says `validate_ec2_termination_date` terminates the
instance with reason "The termination_date requires a UTC offset" on a
timestamp lacking an offset and "Unable to parse the termination_date"
on an unparsable one.  The code's `except` handler guards on
`error is TypeError`, which is always `False`, so neither reason is
ever issued: an offset-naive timestamp makes the function raise
`TypeError` (first conjunct) and an unparsable one makes it raise
`ValueError` (second conjunct), in both cases with no termination call
and no message.  Only the already-past case (third conjunct) behaves
as claimed. -/
theorem validate_termination_date_raises_instead_of_terminating :
    validate_ec2_termination_date dateutil_parse sample_now true "i-1"
        (some [⟨"termination_date", "2015-01-01T00:00:00"⟩])
      = Except.error PyExc.typeError ∧
    validate_ec2_termination_date dateutil_parse sample_now true "i-1"
        (some [⟨"termination_date", "not-a-date"⟩])
      = Except.error PyExc.valueError ∧
    validate_ec2_termination_date dateutil_parse sample_now true "i-1"
        (some [⟨"termination_date", "2015-01-01T00:00:00+00:00"⟩])
      = Except.ok
          (some (terminate_instance true "i-1" "The termination_date has passed").1,
           (terminate_instance true "i-1" "The termination_date has passed").2) :=
  ⟨rfl, rfl, rfl⟩

/-- C5: the claim says that when a lifetime tag matching the shorthand
appears at a poll, the enforcer writes termination_date = poll-start +
duration, returns that deadline to its caller, and stops polling.  The
write and the stop are as claimed — with `lifetime="2h"` observed, the
single provider call writes the isoformat of `start + 7200` seconds —
but the function then executes a bare `return`, handing `None` (not
the deadline) back to `enforce`. -/
theorem wait_for_tags_writes_deadline_but_returns_none
    (livemode : Bool) (start : Int) :
    wait_for_tags livemode "i-1" start [some [⟨"lifetime", "2h"⟩]]
      = Except.ok (none,
          [ReaperAction.create_tags "termination_date"
            (TagWriteValue.isoformat (start + 7200))]) :=
  rfl

/-- Classifier for C7: is a provider call one of the route-table
association deletes? -/
def is_rta_delete : ReaperAction → Bool
  | ReaperAction.rta_delete _ => true
  | _ => false

/-- Helper for C7: the route-table association walk emits only
`rta_delete` calls. -/
theorem delete_nonmain_associations_all_rta (l : List RouteTableAssociation) :
    (delete_nonmain_associations l).all is_rta_delete = true := by
  induction l with
  | nil => rfl
  | cons rta rest ih =>
    unfold delete_nonmain_associations
    by_cases h : rta.main
    · simp [h, ih]
    · simp [h, ih, is_rta_delete]

/-- C7: the claim says `delete_ec2_resource` on a route table deletes
the non-main associations and then deletes the table itself.  The code
deletes only the associations: its `"RouteTable"` branch never calls
`item.delete()`.  Concretely, a route table with one non-main and one
main association yields exactly the one association delete (first
conjunct), and in general the trace for kind `"route_tables"` consists
solely of association deletes — no table delete ever appears (second
conjunct). -/
theorem route_table_delete_omits_table_itself :
    delete_ec2_resource
        ⟨"rtb-1", none, none, [⟨false, "rtba-1"⟩, ⟨true, "rtba-main"⟩], false, []⟩
        "route_tables" "rtb-1"
      = [ReaperAction.rta_delete "rtba-1"] ∧
    ∀ (item : EC2Resource) (resource_id : String),
      (delete_ec2_resource item "route_tables" resource_id).all is_rta_delete = true := by
  refine ⟨rfl, ?_⟩
  intro item resource_id
  have hrt : delete_ec2_resource item "route_tables" resource_id
      = delete_nonmain_associations item.associations_attribute := rfl
  rw [hrt]
  exact delete_nonmain_associations_all_rta item.associations_attribute

/-- C8: the claim says the sweep never deletes a VPC's default network
ACL — the delete is issued only when the ACL is not the default.  The
code's guard is dead: the caller passes the kind string
`"network_acls"`, which `adjust_resource_string` turns into
`"NetworkAcl"` (first conjunct), the case-sensitive test
`"NetworkACL" in resource` then fails (second conjunct), and control
falls through to the unconditional `item.delete()` — issued here on an
ACL whose `is_default` attribute is `True` (third conjunct). -/
theorem default_network_acl_is_deleted_anyway :
    adjust_resource_string "network_acls" = "NetworkAcl" ∧
    strContains "NetworkAcl" "NetworkACL" = false ∧
    delete_ec2_resource ⟨"acl-1", none, none, [], true, []⟩ "network_acls" "acl-1"
      = [ReaperAction.item_delete "NetworkAcl" "acl-1"] :=
  ⟨rfl, rfl, rfl⟩

/-- C2 counterexample: the claim says the sweep functions never raise,
and in particular that a resource whose termination_date lacks a
timezone offset is logged and skipped.  A single subnet tagged with
the offset-naive timestamp `2015-01-01T00:00:00` makes
`terminate_expired_ec2_resources` raise `TypeError`: the string parses
(so the `except ValueError` guard is not reached by a parse failure),
and the naive/aware comparison raises `TypeError`, which the
`except ValueError` clause does not catch. -/
theorem sweep_raises_on_offset_naive_timestamp :
    terminate_expired_ec2_resources dateutil_parse sample_now true "subnets"
        [⟨"subnet-1", some [⟨"termination_date", "2015-01-01T00:00:00"⟩], none, [], false, []⟩]
      = Except.error PyExc.typeError :=
  rfl

/-- Helper for C9: an `indefinite`-tagged resource at the head of the
per-kind loop changes nothing — same accumulators, no provider call. -/
theorem sweep_loop_skips_indefinite (p : String → Except PyExc Timestamp)
    (now : Int) (livemode : Bool) (resource : String) (r : EC2Resource)
    (h : resource_termination_lookup resource r = some prod_infra)
    (rs : List EC2Resource) (a b c : List String) (d : List ReaperAction) :
    terminate_expired_ec2_resources_loop p now livemode resource (r :: rs) a b c d
      = terminate_expired_ec2_resources_loop p now livemode resource rs a b c d := by
  simp only [terminate_expired_ec2_resources_loop, h]
  simp

/-- C9: a resource whose termination_date tag is the sentinel
`indefinite` is skipped entirely by one sweep pass: it contributes to
none of the outcome lists and triggers no provider call wherever it
appears in the listing (first conjunct), and a sweep over just that
resource returns empty `deleted`/`improperly_tagged`/`stopped` lists
with an empty provider trace (second conjunct).  Since the trace is
empty the provider state is unchanged, so an immediately repeated
sweep is the same computation on the same input and returns the same
empty outcome — the idempotence the claim states. -/
theorem indefinite_resource_sweep_is_noop (p : String → Except PyExc Timestamp)
    (now : Int) (livemode : Bool) (resource : String) (r : EC2Resource)
    (rs : List EC2Resource)
    (h : resource_termination_lookup resource r = some prod_infra) :
    terminate_expired_ec2_resources p now livemode resource (r :: rs)
      = terminate_expired_ec2_resources p now livemode resource rs ∧
    terminate_expired_ec2_resources p now livemode resource [r]
      = Except.ok (⟨[], [], []⟩, []) := by
  constructor
  · exact sweep_loop_skips_indefinite p now livemode resource r h rs [] [] [] []
  · rw [terminate_expired_ec2_resources,
      sweep_loop_skips_indefinite p now livemode resource r h [] [] [] [] []]
    rfl

/-- Witness for C9 at a concrete subnet tagged `indefinite`. -/
theorem indefinite_resource_sweep_is_noop_witness :
    terminate_expired_ec2_resources dateutil_parse sample_now true "subnets"
        [⟨"subnet-1", some [⟨"termination_date", "indefinite"⟩], none, [], false, []⟩]
      = Except.ok (⟨[], [], []⟩, []) :=
  (indefinite_resource_sweep_is_noop dateutil_parse sample_now true "subnets"
    ⟨"subnet-1", some [⟨"termination_date", "indefinite"⟩], none, [], false, []⟩ [] rfl).2

/-- C10: in `determine_message_color` the `is_red_alert` (STOPPED)
test precedes the `is_missing_tag` (FOUND) test, so a log message
containing both substrings is classified with the elevated-severity
red color, not the missing-tag orange. -/
theorem stopped_checked_before_found (event : LogEvent) (message : String)
    (h1 : strContains message "STOPPED" = true)
    (_h2 : strContains message "FOUND" = true) :
    determine_message_color event message = "#ff0000" := by
  unfold determine_message_color
  simp [is_red_alert, h1]

/-- Witness for C10 on a message containing both STOPPED and FOUND. -/
theorem stopped_checked_before_found_witness :
    strContains "REAPER STOPPED instances FOUND" "STOPPED" = true ∧
    strContains "REAPER STOPPED instances FOUND" "FOUND" = true ∧
    determine_message_color ⟨"SchemaEnforcer"⟩ "REAPER STOPPED instances FOUND" = "#ff0000" :=
  ⟨by decide, by decide,
    stopped_checked_before_found ⟨"SchemaEnforcer"⟩ "REAPER STOPPED instances FOUND"
      (by decide) (by decide)⟩

/-- The span of characters an anchored `$` match covers: CPython's
`$` (without re.MULTILINE) matches at the end of the string or just
before a newline that is the string's final character, so a single
string-final newline lies outside the match and is stripped. -/
def dollar_scope (cs : List Char) : List Char :=
  if cs.getLastD ' ' = '\n' then cs.dropLast else cs

/-- Spec-side reading of `^[0-9]+(w|d|h|m)$` under CPython's `$`
semantics (spec section 8): within the `$`-scope of the string, at
least two characters, every character but the last a digit, and the
last character one of the four units.  Stated independently of the
source's `re.search` mechanics so the two can be compared. -/
def matches_lifetime_pattern (s : String) : Bool :=
  let cs := dollar_scope s.toList
  decide (2 ≤ cs.length) && cs.dropLast.all Char.isDigit && unit_char (cs.getLastD ' ')

/-- The digit run returned by `span_digits` is `takeWhile`/`dropWhile`. -/
theorem span_digits_eq (cs : List Char) :
    span_digits cs = (cs.takeWhile Char.isDigit, cs.dropWhile Char.isDigit) := by
  induction cs with
  | nil => rfl
  | cons c cs ih =>
    by_cases h : Char.isDigit c
    · simp [span_digits, List.takeWhile_cons, List.dropWhile_cons, h, ih]
    · simp [span_digits, List.takeWhile_cons, List.dropWhile_cons, h]

/-- Everything `takeWhile Char.isDigit` keeps is a digit. -/
theorem all_takeWhile_digits (cs : List Char) :
    (cs.takeWhile Char.isDigit).all Char.isDigit = true := by
  induction cs with
  | nil => rfl
  | cons c cs ih =>
    by_cases h : Char.isDigit c <;> simp [List.takeWhile_cons, h, ih]

/-- On an all-digit run followed by a non-digit, `takeWhile` keeps
exactly the run and `dropWhile` leaves the rest. -/
theorem takeWhile_digits_append (ds : List Char) (u : Char) (rest : List Char)
    (hd : ds.all Char.isDigit = true) (hu : Char.isDigit u = false) :
    (ds ++ u :: rest).takeWhile Char.isDigit = ds
      ∧ (ds ++ u :: rest).dropWhile Char.isDigit = u :: rest := by
  induction ds with
  | nil => simp [List.takeWhile_cons, List.dropWhile_cons, hu]
  | cons d ds ih =>
    simp only [List.all_cons, Bool.and_eq_true] at hd
    have h2 := ih hd.2
    simp [List.takeWhile_cons, List.dropWhile_cons, hd.1, h2.1, h2.2]

/-- A unit character is not a digit. -/
theorem unit_char_not_digit (u : Char) (h : unit_char u = true) :
    Char.isDigit u = false := by
  simp only [unit_char, Bool.or_eq_true, decide_eq_true_eq] at h
  rcases h with ((h | h) | h) | h <;> subst h <;> decide

/-- A unit character is not a newline. -/
theorem unit_char_ne_newline (u : Char) (h : unit_char u = true) : u ≠ '\n' := by
  simp only [unit_char, Bool.or_eq_true, decide_eq_true_eq] at h
  rcases h with ((h | h) | h) | h <;> subst h <;> decide

/-- Completeness of the regex match at end-of-string: a nonempty digit
run followed by a unit character is matched with those groups. -/
theorem lifetime_regex_groups_of_concat (g : List Char) (u : Char)
    (hg : g ≠ []) (hd : g.all Char.isDigit = true) (hu : unit_char u = true) :
    lifetime_regex_groups (g ++ [u]) = some (g, u) := by
  have hnd := unit_char_not_digit u hu
  have hsp := takeWhile_digits_append g u [] hd hnd
  rcases g with _ | ⟨d, ds⟩
  · exact absurd rfl hg
  · simp only [lifetime_regex_groups, span_digits_eq, hsp.1, hsp.2, hu, if_true]

/-- Completeness of the regex match before a trailing newline: a
nonempty digit run, a unit character and a final newline are matched
with the same groups (`$` tolerates the newline). -/
theorem lifetime_regex_groups_of_concat_newline (g : List Char) (u : Char)
    (hg : g ≠ []) (hd : g.all Char.isDigit = true) (hu : unit_char u = true) :
    lifetime_regex_groups (g ++ [u, '\n']) = some (g, u) := by
  have hnd := unit_char_not_digit u hu
  have hsp := takeWhile_digits_append g u ['\n'] hd hnd
  rcases g with _ | ⟨d, ds⟩
  · exact absurd rfl hg
  · simp only [lifetime_regex_groups, span_digits_eq, hsp.1, hsp.2]
    simp [hu]

/-- Soundness of the regex match: a successful match decomposes the
input into a nonempty all-digit group and a trailing unit character,
optionally followed by one final newline. -/
theorem lifetime_regex_groups_sound (cs g : List Char) (u : Char)
    (h : lifetime_regex_groups cs = some (g, u)) :
    (cs = g ++ [u] ∨ cs = g ++ [u, '\n']) ∧ g ≠ [] ∧ g.all Char.isDigit = true
      ∧ unit_char u = true := by
  have hsplit := List.takeWhile_append_dropWhile (p := Char.isDigit) (l := cs)
  have halldig := all_takeWhile_digits cs
  simp only [lifetime_regex_groups, span_digits_eq] at h
  rcases htw : cs.takeWhile Char.isDigit with _ | ⟨d, ds⟩ <;> rw [htw] at h
  · simp at h
  · rcases hdw : cs.dropWhile Char.isDigit with _ | ⟨u1, rest⟩ <;> rw [hdw] at h
    · simp at h
    · rcases rest with _ | ⟨r2, rs⟩
      · by_cases hu : unit_char u1 = true
        · simp only [hu, if_true, Option.some.injEq, Prod.mk.injEq] at h
          obtain ⟨hgd, huu⟩ := h
          subst huu
          refine ⟨Or.inl ?_, ?_, ?_, hu⟩
          · rw [← hsplit, htw, hdw, hgd]
          · rw [← hgd]; simp
          · rw [← hgd, ← htw]; exact halldig
        · simp [hu] at h
      · rcases rs with _ | ⟨r3, rs2⟩
        · by_cases hb : (unit_char u1 && (r2 == '\n')) = true
          · simp only [hb, if_true, Option.some.injEq, Prod.mk.injEq] at h
            obtain ⟨hgd, huu⟩ := h
            subst huu
            simp only [Bool.and_eq_true, beq_iff_eq] at hb
            obtain ⟨hu, hr2⟩ := hb
            subst hr2
            refine ⟨Or.inr ?_, ?_, ?_, hu⟩
            · rw [← hsplit, htw, hdw, hgd]
            · rw [← hgd]; simp
            · rw [← hgd, ← htw]; exact halldig
          · simp [hb] at h
        · simp at h

/-- C6 counterexample: the claim states that every string other than
a digit run plus unit letter — explicitly including strings with
trailing characters — is mapped to the `None` sentinel.  It is not:
CPython's `$` matches just before a string-final newline, so
`"2h\n"`, whose final character is a newline (second conjunct), is
accepted by `re.search(r"^([0-9]+)(w|d|h|m)$", ...)` and
`validate_lifetime_value` returns `(2, 'h')` for it (first conjunct)
rather than `None`. -/
theorem validate_lifetime_value_accepts_trailing_newline :
    validate_lifetime_value "2h\n" = some (2, 'h') ∧
    "2h\n".toList.getLastD ' ' = '\n' :=
  ⟨rfl, rfl⟩

/-- C6 (amended): `validate_lifetime_value` realizes the contract of
`^[0-9]+(w|d|h|m)$` under CPython's anchor semantics: for every string
consisting of a nonempty digit run followed by a unit letter,
optionally followed by a single trailing newline (which `$` matches
before), it returns the pair of the integer value of the numeric
prefix and the unit letter; for every other string (empty, wrong unit,
negative sign, any other trailing characters) it returns the `None`
sentinel. -/
theorem validate_lifetime_value_meets_py_regex_contract (s : String) :
    validate_lifetime_value s =
      if matches_lifetime_pattern s then
        some (py_int (dollar_scope s.toList).dropLast,
          (dollar_scope s.toList).getLastD ' ')
      else none := by
  by_cases hm : matches_lifetime_pattern s = true
  · have hc := hm
    simp only [matches_lifetime_pattern, Bool.and_eq_true, decide_eq_true_eq] at hc
    obtain ⟨⟨hlen, hdig⟩, hunit⟩ := hc
    rcases List.eq_nil_or_concat (dollar_scope s.toList) with hnil | ⟨L, b, heq⟩
    · rw [hnil] at hlen; simp at hlen
    · rw [List.concat_eq_append] at heq
      have hL : (dollar_scope s.toList).dropLast = L := by
        rw [heq]; exact List.dropLast_concat
      have hb : (dollar_scope s.toList).getLastD ' ' = b := by
        rw [heq]; exact List.getLastD_concat _ _ _
      have hLd : L.all Char.isDigit = true := by rw [hL] at hdig; exact hdig
      have hbu : unit_char b = true := by rw [hb] at hunit; exact hunit
      have hLne : L ≠ [] := by
        intro h0
        rw [heq, h0] at hlen
        simp at hlen
      rw [hm, if_pos rfl, hL, hb]
      unfold validate_lifetime_value
      by_cases hnl : s.toList.getLastD ' ' = '\n'
      · have hscope : dollar_scope s.toList = s.toList.dropLast := by
          unfold dollar_scope; rw [if_pos hnl]
        have hsne : s.toList ≠ [] := by
          intro h0; rw [h0] at hnl; simp at hnl
        rcases List.eq_nil_or_concat s.toList with h0 | ⟨M, b0, heqs⟩
        · exact absurd h0 hsne
        · rw [List.concat_eq_append] at heqs
          have hb0 : b0 = '\n' := by
            rw [heqs, List.getLastD_concat _ _ _] at hnl
            exact hnl
          have hM : s.toList.dropLast = M := by
            rw [heqs]; exact List.dropLast_concat
          have hM2 : M = L ++ [b] := by rw [← hM, ← hscope, heq]
          have hfull : s.toList = L ++ [b, '\n'] := by
            rw [heqs, hM2, hb0, List.append_assoc]
            rfl
          rw [hfull, lifetime_regex_groups_of_concat_newline L b hLne hLd hbu]
      · have hscope : dollar_scope s.toList = s.toList := by
          unfold dollar_scope; rw [if_neg hnl]
        have hst : s.toList = L ++ [b] := hscope.symm.trans heq
        rw [hst, lifetime_regex_groups_of_concat L b hLne hLd hbu]
  · have hm0 : matches_lifetime_pattern s = false := by
      cases h : matches_lifetime_pattern s
      · rfl
      · exact absurd h hm
    rw [hm0]
    simp only [Bool.false_eq_true, if_false]
    unfold validate_lifetime_value
    cases hgroups : lifetime_regex_groups s.toList with
    | none => rfl
    | some gu =>
      obtain ⟨g, u⟩ := gu
      obtain ⟨hdisj, hgne, hgd, hu⟩ := lifetime_regex_groups_sound s.toList g u hgroups
      exfalso
      apply hm
      simp only [matches_lifetime_pattern, Bool.and_eq_true, decide_eq_true_eq]
      have hassoc : g ++ [u, '\n'] = (g ++ [u]) ++ ['\n'] := by
        rw [List.append_assoc]
        rfl
      have hscope2 : dollar_scope s.toList = g ++ [u] := by
        rcases hdisj with hcase | hcase
        · unfold dollar_scope
          rw [hcase, List.getLastD_concat _ _ _, if_neg (unit_char_ne_newline u hu)]
        · unfold dollar_scope
          have hlastnl : s.toList.getLastD ' ' = '\n' := by
            rw [hcase, hassoc]
            exact List.getLastD_concat _ _ _
          rw [if_pos hlastnl, hcase, hassoc]
          exact List.dropLast_concat
      refine ⟨⟨?_, ?_⟩, ?_⟩
      · rw [hscope2]
        simp only [List.length_append, List.length_cons, List.length_nil]
        have : 1 ≤ g.length := List.length_pos.mpr hgne
        omega
      · rw [hscope2, List.dropLast_concat]; exact hgd
      · rw [hscope2, List.getLastD_concat _ _ _]; exact hu

/-- Does a parse outcome classify the string as an offset-naive
timestamp? -/
def is_naive_result : Except PyExc Timestamp → Bool
  | .ok (Timestamp.naive _) => true
  | _ => false

/-- A resource whose present, non-indefinite termination_date tag
parses to an offset-naive timestamp under `p` — the one shape of input
on which the per-kind loop's `except ValueError` isolation fails. -/
def naive_tag_resource (p : String → Except PyExc Timestamp) (resource : String)
    (item : EC2Resource) : Bool :=
  match resource_termination_lookup resource item with
  | none => false
  | some s => if s = prod_infra then false else is_naive_result (p s)

/-- A resource whose present, non-indefinite termination_date tag
fails to parse outright (`ValueError`) under `p`. -/
def valueerror_tag_resource (p : String → Except PyExc Timestamp) (resource : String)
    (item : EC2Resource) : Bool :=
  match resource_termination_lookup resource item with
  | none => false
  | some s =>
    if s = prod_infra then false
    else
      match p s with
      | .error PyExc.valueError => true
      | _ => false

/-- Load-balancer analogue of `naive_tag_resource`. -/
def naive_tag_lb (p : String → Except PyExc Timestamp) (lb : LoadBalancerEntry) : Bool :=
  match get_tag (some lb.tag_array) "termination_date" with
  | none => false
  | some s => if s = prod_infra then false else is_naive_result (p s)

/-- Target-group analogue of `naive_tag_resource`. -/
def naive_tag_tg (p : String → Except PyExc Timestamp) (tg : TargetGroupEntry) : Bool :=
  match get_tag (some tg.tag_array) "termination_date" with
  | none => false
  | some s => if s = prod_infra then false else is_naive_result (p s)

/-- The concrete dateutil model raises only `ValueError` (a parse that
succeeds may still yield a naive timestamp, but the parse itself never
raises `TypeError`). -/
theorem dateutil_parse_only_valueError :
    ∀ s e, dateutil_parse s = Except.error e → e = PyExc.valueError := by
  intro s e h
  unfold dateutil_parse at h
  dsimp only at h
  split at h <;> split at h <;> simp_all

/-- Under a parse function that only raises `ValueError`, and a tag
that does not parse naive, the per-resource `try:` body cannot raise
`TypeError`. -/
theorem ec2_sweep_try_no_typeError (p : String → Except PyExc Timestamp) (now : Int)
    (livemode : Bool) (item : EC2Resource) (resource resource_id td : String)
    (hp : ∀ s e, p s = Except.error e → e = PyExc.valueError)
    (hn : is_naive_result (p td) = false) :
    ec2_sweep_try p now livemode item resource resource_id td
      ≠ Except.error PyExc.typeError := by
  unfold ec2_sweep_try
  cases hpt : p td with
  | error e =>
    have he := hp td e hpt
    subst he
    simp [Bind.bind, Except.bind]
  | ok t =>
    cases t with
    | naive t0 =>
      rw [hpt] at hn
      simp [is_naive_result] at hn
    | aware t0 =>
      simp only [Bind.bind, Except.bind, tsGt, tsSub]
      split <;> simp [pure, Except.pure]
      split <;> simp

/-- The per-kind EC2 loop returns `ok` whenever the parse function
raises only `ValueError` and no listed resource carries a naive-parsing
tag: every other outcome of the `try:` body is either handled in the
loop or caught by `except ValueError`. -/
theorem ec2_sweep_loop_no_raise (p : String → Except PyExc Timestamp) (now : Int)
    (livemode : Bool) (resource : String)
    (hp : ∀ s e, p s = Except.error e → e = PyExc.valueError) :
    ∀ (rs : List EC2Resource), (∀ r ∈ rs, naive_tag_resource p resource r = false) →
      ∀ a b c d, ∃ out,
        terminate_expired_ec2_resources_loop p now livemode resource rs a b c d
          = Except.ok out := by
  intro rs
  induction rs with
  | nil =>
    intro _ a b c d
    exact ⟨_, rfl⟩
  | cons r rest ih =>
    intro hn a b c d
    have hnr := hn r (List.mem_cons_self r rest)
    have hnrest : ∀ x ∈ rest, naive_tag_resource p resource x = false :=
      fun x hx => hn x (List.mem_cons_of_mem r hx)
    simp only [terminate_expired_ec2_resources_loop]
    split
    · split
      · exact ih hnrest _ _ _ _
      · exact ih hnrest _ _ _ _
    · rename_i td hlt
      split
      · rename_i hne
        have hnd : is_naive_result (p td) = false := by
          unfold naive_tag_resource at hnr
          rw [hlt] at hnr
          simpa [hne] using hnr
        split
        · exact ih hnrest _ _ _ _
        · exact ih hnrest _ _ _ _
        · rename_i e hvne htry
          cases e with
          | valueError => exact absurd rfl hvne
          | typeError =>
            exact absurd htry
              (ec2_sweep_try_no_typeError p now livemode r resource r.id td hp hnd)
      · exact ih hnrest _ _ _ _

/-- Load-balancer analogue of `ec2_sweep_try_no_typeError`. -/
theorem lb_sweep_try_no_typeError (p : String → Except PyExc Timestamp) (now : Int)
    (livemode : Bool) (service_is_v2 : Bool) (lb_name td : String)
    (hp : ∀ s e, p s = Except.error e → e = PyExc.valueError)
    (hn : is_naive_result (p td) = false) :
    lb_sweep_try p now livemode service_is_v2 lb_name td
      ≠ Except.error PyExc.typeError := by
  unfold lb_sweep_try
  cases hpt : p td with
  | error e =>
    have he := hp td e hpt
    subst he
    simp [Bind.bind, Except.bind]
  | ok t =>
    cases t with
    | naive t0 =>
      rw [hpt] at hn
      simp [is_naive_result] at hn
    | aware t0 =>
      simp only [Bind.bind, Except.bind, tsGt, tsSub]
      split <;> simp [pure, Except.pure]
      split <;> split <;> simp

/-- Target-group analogue of `ec2_sweep_try_no_typeError`. -/
theorem tg_sweep_try_no_typeError (p : String → Except PyExc Timestamp) (now : Int)
    (livemode : Bool) (tg_arn td : String)
    (hp : ∀ s e, p s = Except.error e → e = PyExc.valueError)
    (hn : is_naive_result (p td) = false) :
    tg_sweep_try p now livemode tg_arn td ≠ Except.error PyExc.typeError := by
  unfold tg_sweep_try
  cases hpt : p td with
  | error e =>
    have he := hp td e hpt
    subst he
    simp [Bind.bind, Except.bind]
  | ok t =>
    cases t with
    | naive t0 =>
      rw [hpt] at hn
      simp [is_naive_result] at hn
    | aware t0 =>
      simp only [Bind.bind, Except.bind, tsGt, tsSub]
      split <;> simp [pure, Except.pure]
      split <;> simp

/-- Load-balancer loop analogue of `ec2_sweep_loop_no_raise`. -/
theorem lb_sweep_loop_no_raise (p : String → Except PyExc Timestamp) (now : Int)
    (livemode : Bool) (service_is_v2 : Bool)
    (hp : ∀ s e, p s = Except.error e → e = PyExc.valueError) :
    ∀ (lbs : List LoadBalancerEntry), (∀ lb ∈ lbs, naive_tag_lb p lb = false) →
      ∀ a b c, ∃ out,
        terminate_expired_load_balancers_loop p now livemode service_is_v2 lbs a b c
          = Except.ok out := by
  intro lbs
  induction lbs with
  | nil =>
    intro _ a b c
    exact ⟨_, rfl⟩
  | cons lb rest ih =>
    intro hn a b c
    have hnr := hn lb (List.mem_cons_self lb rest)
    have hnrest : ∀ x ∈ rest, naive_tag_lb p x = false :=
      fun x hx => hn x (List.mem_cons_of_mem lb hx)
    simp only [terminate_expired_load_balancers_loop]
    split
    · exact ih hnrest _ _ _
    · rename_i td hlt
      split
      · rename_i hne
        have hnd : is_naive_result (p td) = false := by
          unfold naive_tag_lb at hnr
          rw [hlt] at hnr
          simpa [hne] using hnr
        split
        · exact ih hnrest _ _ _
        · exact ih hnrest _ _ _
        · rename_i e hvne htry
          cases e with
          | valueError => exact absurd rfl hvne
          | typeError =>
            exact absurd htry
              (lb_sweep_try_no_typeError p now livemode service_is_v2 lb.name td hp hnd)
      · exact ih hnrest _ _ _

/-- Target-group loop analogue of `ec2_sweep_loop_no_raise`. -/
theorem tg_sweep_loop_no_raise (p : String → Except PyExc Timestamp) (now : Int)
    (livemode : Bool)
    (hp : ∀ s e, p s = Except.error e → e = PyExc.valueError) :
    ∀ (tgs : List TargetGroupEntry), (∀ tg ∈ tgs, naive_tag_tg p tg = false) →
      ∀ a b c, ∃ out,
        terminate_expired_target_groups_loop p now livemode tgs a b c
          = Except.ok out := by
  intro tgs
  induction tgs with
  | nil =>
    intro _ a b c
    exact ⟨_, rfl⟩
  | cons tg rest ih =>
    intro hn a b c
    have hnr := hn tg (List.mem_cons_self tg rest)
    have hnrest : ∀ x ∈ rest, naive_tag_tg p x = false :=
      fun x hx => hn x (List.mem_cons_of_mem tg hx)
    simp only [terminate_expired_target_groups_loop]
    split
    · exact ih hnrest _ _ _
    · rename_i td hlt
      split
      · rename_i hne
        have hnd : is_naive_result (p td) = false := by
          unfold naive_tag_tg at hnr
          rw [hlt] at hnr
          simpa [hne] using hnr
        split
        · exact ih hnrest _ _ _
        · exact ih hnrest _ _ _
        · rename_i e hvne htry
          cases e with
          | valueError => exact absurd rfl hvne
          | typeError =>
            exact absurd htry (tg_sweep_try_no_typeError p now livemode tg.arn td hp hnd)
      · exact ih hnrest _ _ _

/-- A resource whose tag raises `ValueError` on parse is logged and
skipped by the per-kind loop: the loop continues on the remaining
resources with unchanged accumulators. -/
theorem ec2_sweep_loop_skips_valueerror (p : String → Except PyExc Timestamp) (now : Int)
    (livemode : Bool) (resource : String) (rbad : EC2Resource)
    (hb : valueerror_tag_resource p resource rbad = true) :
    ∀ rs a b c d,
      terminate_expired_ec2_resources_loop p now livemode resource (rbad :: rs) a b c d
        = terminate_expired_ec2_resources_loop p now livemode resource rs a b c d := by
  intro rs a b c d
  unfold valueerror_tag_resource at hb
  cases hlt : resource_termination_lookup resource rbad with
  | none => rw [hlt] at hb; simp at hb
  | some s =>
    rw [hlt] at hb
    have hb2 : (if s = prod_infra then false
        else match p s with
          | Except.error PyExc.valueError => true
          | _ => false) = true := hb
    by_cases hind : s = prod_infra
    · simp [hind] at hb2
    · rw [if_neg hind] at hb2
      cases hps : p s with
      | ok t => rw [hps] at hb2; simp at hb2
      | error e =>
        cases e with
        | typeError => rw [hps] at hb2; simp at hb2
        | valueError =>
          have htry : ec2_sweep_try p now livemode rbad resource rbad.id s
              = Except.error PyExc.valueError := by
            unfold ec2_sweep_try
            rw [hps]
            simp [Bind.bind, Except.bind]
          simp only [terminate_expired_ec2_resources_loop, hlt, hind, htry]
          simp [hind]

/-- C2 (amended): the sweep functions
(`terminate_expired_ec2_resources`, `terminate_expired_load_balancers`,
`terminate_expired_target_groups`) never raise provided every listed
resource's present, non-indefinite termination_date tag avoids the
offset-naive case — the parse either succeeds timezone-aware or fails
outright with `ValueError`.  Under that proviso the aggregate outcome
lists are returned (`Except.ok`, conjuncts 1, 3, 4), and a resource
whose tag raises `ValueError` on parse is logged and skipped without
affecting the evaluation of the remaining resources (conjunct 2).  The
original claim's further assertion — that a tag lacking a timezone
offset is also isolated — is false: it raises `TypeError` past the
`except ValueError` clause (see the counterexample theorem). -/
theorem sweep_partial_failure_isolation
    (p : String → Except PyExc Timestamp) (now : Int) (livemode : Bool)
    (resource : String) (rs : List EC2Resource) (rbad : EC2Resource)
    (service_is_v2 : Bool) (lbs : List LoadBalancerEntry) (tgs : List TargetGroupEntry)
    (hp : ∀ s e, p s = Except.error e → e = PyExc.valueError)
    (hn : ∀ r ∈ rs, naive_tag_resource p resource r = false)
    (hbad : valueerror_tag_resource p resource rbad = true)
    (hnlb : ∀ lb ∈ lbs, naive_tag_lb p lb = false)
    (hntg : ∀ tg ∈ tgs, naive_tag_tg p tg = false) :
    (∃ out, terminate_expired_ec2_resources p now livemode resource rs = Except.ok out) ∧
    terminate_expired_ec2_resources p now livemode resource (rbad :: rs)
      = terminate_expired_ec2_resources p now livemode resource rs ∧
    (∃ out, terminate_expired_load_balancers p now livemode service_is_v2 lbs
      = Except.ok out) ∧
    (∃ out, terminate_expired_target_groups p now livemode tgs = Except.ok out) := by
  refine ⟨?_, ?_, ?_, ?_⟩
  · exact ec2_sweep_loop_no_raise p now livemode resource hp rs hn [] [] [] []
  · exact ec2_sweep_loop_skips_valueerror p now livemode resource rbad hbad rs [] [] [] []
  · exact lb_sweep_loop_no_raise p now livemode service_is_v2 hp lbs hnlb [] [] []
  · exact tg_sweep_loop_no_raise p now livemode hp tgs hntg [] [] []

/-- Witness fixture: an expired, properly tagged subnet. -/
def w_ok_subnet : EC2Resource :=
  ⟨"subnet-ok", some [⟨"termination_date", "2015-01-01T00:00:00+00:00"⟩], none, [], false, []⟩

/-- Witness fixture: a subnet with no termination_date tag. -/
def w_untagged_subnet : EC2Resource :=
  ⟨"subnet-untagged", none, none, [], false, []⟩

/-- Witness fixture: a subnet whose termination_date tag does not
parse. -/
def w_bad_subnet : EC2Resource :=
  ⟨"subnet-bad", some [⟨"termination_date", "not-a-date"⟩], none, [], false, []⟩

/-- Witness fixture: an expired v2 load balancer. -/
def w_lb : LoadBalancerEntry :=
  ⟨"arn-lb1", [⟨"termination_date", "2015-01-01T00:00:00+00:00"⟩]⟩

/-- Witness fixture: an untagged target group. -/
def w_tg : TargetGroupEntry := ⟨"arn-tg1", []⟩

/-- Witness for the amended C2 theorem at concrete inputs: a sweep
over an expired and an untagged subnet succeeds, prefixing an
unparsable-tag subnet changes nothing, and the load-balancer and
target-group sweeps succeed as well. -/
theorem sweep_partial_failure_isolation_witness :
    (∃ out, terminate_expired_ec2_resources dateutil_parse sample_now true "subnets"
      [w_ok_subnet, w_untagged_subnet] = Except.ok out) ∧
    terminate_expired_ec2_resources dateutil_parse sample_now true "subnets"
        (w_bad_subnet :: [w_ok_subnet, w_untagged_subnet])
      = terminate_expired_ec2_resources dateutil_parse sample_now true "subnets"
        [w_ok_subnet, w_untagged_subnet] ∧
    (∃ out, terminate_expired_load_balancers dateutil_parse sample_now true true [w_lb]
      = Except.ok out) ∧
    (∃ out, terminate_expired_target_groups dateutil_parse sample_now true [w_tg]
      = Except.ok out) :=
  sweep_partial_failure_isolation dateutil_parse sample_now true "subnets"
    [w_ok_subnet, w_untagged_subnet] w_bad_subnet true [w_lb] [w_tg]
    dateutil_parse_only_valueError (by decide) (by decide) (by decide) (by decide)
